import Mathlib

/-!
Verification development for the DeepHit competing-risks repeated-CV pipeline
(`DeppHit.ipynb`).  The script is embedded shallowly over exact rationals:

* IEEE NaN values produced by the numpy/scipy routines (division by zero,
  undefined statistics, quantiles at non-positive degrees of freedom) are
  modelled by `none : Option ℚ`, with NaN-propagating arithmetic.
* Uncaught Python exceptions (IndexError, TypeError) are modelled with
  `Except String`; the repeated-CV loop has no handler, so an error in a fold
  aborts the remaining folds, exactly as an uncaught exception would.
* External numerical collaborators (torch training, `EvalSurv` concordance and
  Brier scores, the scipy square root and Student-t quantile, the sklearn
  splitters) are abstracted as oracle parameters; every piece of control flow
  and data flow of the script itself is embedded concretely.
-/

namespace DeepHitCR

/-! ### NaN-propagating rational arithmetic (`none` models IEEE NaN) -/

/-- Addition where `none` models NaN. -/
def oadd : Option ℚ → Option ℚ → Option ℚ
  | some a, some b => some (a + b)
  | _, _ => none

/-- Subtraction where `none` models NaN. -/
def osub : Option ℚ → Option ℚ → Option ℚ
  | some a, some b => some (a - b)
  | _, _ => none

/-- Multiplication where `none` models NaN. -/
def omul : Option ℚ → Option ℚ → Option ℚ
  | some a, some b => some (a * b)
  | _, _ => none

/-- Division returning NaN (`none`) on a zero denominator, as float `0/0`
(and more generally a degenerate quotient) does in the script, where runtime
warnings are suppressed by `warnings.filterwarnings("ignore")`. -/
def qdivN (a b : ℚ) : Option ℚ :=
  if b = 0 then none else some (a / b)

/-! ### Basic list statistics (numpy/scipy embedding) -/

/-- Mean of a list of rationals (used with nonempty lists). -/
def qmean (l : List ℚ) : ℚ := l.sum / l.length

/-- `np.mean`: NaN (`none`) on an empty input, the exact mean otherwise. -/
def npMean (data : List ℚ) : Option ℚ :=
  if data.length = 0 then none else some (qmean data)

/-- Sample variance with one delta degree of freedom (`ddof=1`),
as used by `scipy.stats.sem`. -/
def sampleVar (data : List ℚ) : ℚ :=
  ((data.map (fun x => (x - qmean data) ^ 2)).sum) / ((data.length : ℚ) - 1)

/-- The square of the standard error of the mean: `var(ddof=1) / n`.
`stats.sem data` is the (irrational) square root of this rational. -/
def semSq (data : List ℚ) : ℚ := sampleVar data / data.length

/-- `scipy.stats.sem`: NaN (`none`) for fewer than two samples (the `ddof=1`
variance divides by zero there); otherwise the square root of `semSq`,
computed by the abstract external root oracle `sq`. -/
def statsSem (sq : ℚ → ℚ) (data : List ℚ) : Option ℚ :=
  if data.length < 2 then none else some (sq (semSq data))

/-- `scipy.stats.t.ppf q df`: NaN (`none`) for non-positive degrees of
freedom; otherwise the Student-t quantile, an abstract external oracle `tq`. -/
def tPpfModel (tq : ℚ → ℤ → ℚ) (q : ℚ) (df : ℤ) : Option ℚ :=
  if df ≤ 0 then none else some (tq q df)

/-- Embedding of `compute_confidence_interval` (source lines 279–296):

    n = len(data); mean = np.mean(data); sem = stats.sem(data)
    h = sem * stats.t.ppf((1 + confidence) / 2., n-1)
    return mean, mean - h, mean + h

The external square root (inside `stats.sem`) and the Student-t quantile are
the oracle parameters `sq` and `tq`; NaN is `none`.  Note the source performs
no sample-size check and has no error channel: it always returns a triple. -/
def compute_confidence_interval (sq : ℚ → ℚ) (tq : ℚ → ℤ → ℚ)
    (data : List ℚ) (confidence : ℚ) : Option ℚ × Option ℚ × Option ℚ :=
  let n : ℤ := data.length
  let mean := npMean data
  let sem := statsSem sq data
  let h := omul sem (tPpfModel tq ((1 + confidence) / 2) (n - 1))
  (mean, osub mean h, oadd mean h)

/-! ### Hyperparameter grid and grid search (source lines 102–227) -/

/-- One hyperparameter combination `(lr, alpha, sigma, dropout, batch_size)`. -/
structure Params where
  lr : ℚ
  alpha : ℚ
  sigma : ℚ
  dropout : ℚ
  batch_size : ℕ
deriving DecidableEq, Repr

/-- The hyperparameter grid `param_grid`: a candidate list per parameter. -/
structure ParamGrid where
  lr : List ℚ
  alpha : List ℚ
  sigma : List ℚ
  dropout : List ℚ
  batch_size : List ℕ
deriving DecidableEq, Repr

/-- The full Cartesian product of the grid, in the iteration order of the
source's five nested `for` loops (`lr` outermost, `batch_size` innermost). -/
def gridCombos (g : ParamGrid) : List Params :=
  ((((g.lr ×ˢ g.alpha) ×ˢ g.sigma) ×ˢ g.dropout) ×ˢ g.batch_size).map
    (fun x => ⟨x.1.1.1.1, x.1.1.1.2, x.1.1.2, x.1.2, x.2⟩)

/-- Grid-search accumulator: `best_val` is `best_val_c_index` with `none`
modelling the initial `-np.inf` (every real score exceeds it), and `best_idx`
records the loop iteration at which the retained combination was found
(the source's `best_params`/`best_model` are the data of that iteration). -/
structure SearchState where
  best_val : Option ℚ
  best_idx : Option ℕ
deriving DecidableEq, Repr

/-- One iteration of the grid-search loop body: the update is guarded by the
source's strict comparison `if c_index_val > best_val_c_index`. -/
def gsStep (score : ℕ → ℚ) (st : SearchState) (i : ℕ) : SearchState :=
  match st.best_val with
  | none => ⟨some (score i), some i⟩
  | some b => if b < score i then ⟨some (score i), some i⟩ else st

/-- The grid-search loop over combination indices `0, …, n-1` in order, where
`score i` is the validation concordance of the model trained at iteration `i`
(torch training and `EvalSurv.concordance_td` are external, so the score is an
oracle of the iteration index). -/
def gridSearch (score : ℕ → ℚ) (n : ℕ) : SearchState :=
  (List.range n).foldl (gsStep score) ⟨none, none⟩

/-- `best_params` after the grid-search loop: the combination at the retained
iteration, `none` when the loop body never ran (empty grid). -/
def bestParams (score : ℕ → ℚ) (combos : List Params) : Option Params :=
  (gridSearch score combos.length).best_idx.bind (fun i => combos.get? i)

/-! ### Matrices, fancy indexing, and the per-fold scaler -/

/-- A feature matrix: a list of rows of rationals. -/
abbrev Matrix := List (List ℚ)

/-- Paired label arrays `y = (times, events)`. -/
structure Labels where
  times : List ℚ
  events : List ℕ
deriving DecidableEq, Repr

/-- numpy integer-array ("fancy") indexing of rows, `X[idx]`.  Fancy indexing
returns a fresh copy, never a view: this is why the in-place scaling of
`X_train`/`X_val`/`X_test` in the source never touches `X_all`. -/
def fancyRows (X : Matrix) (idx : List ℕ) : Matrix :=
  idx.map (fun i => X.getD i [])

/-- Fancy indexing of the paired label arrays. -/
def subLabels (y : Labels) (idx : List ℕ) : Labels :=
  ⟨idx.map (fun i => y.times.getD i 0), idx.map (fun i => y.events.getD i 0)⟩

/-- The continuous block `X[:, cat_dim:]` of a matrix. -/
def contPart (cat_dim : ℕ) (X : Matrix) : Matrix :=
  X.map (List.drop cat_dim)

/-- The one-hot block `X[:, :cat_dim]` of a matrix. -/
def ohePart (cat_dim : ℕ) (X : Matrix) : Matrix :=
  X.map (List.take cat_dim)

/-- The slice assignment `X[:, cat_dim:] = M`: each row keeps its first
`cat_dim` entries and takes its continuous block from `M`. -/
def setCont (cat_dim : ℕ) (X M : Matrix) : Matrix :=
  List.zipWith (fun row newc => row.take cat_dim ++ newc) X M

/-- Number of columns of a matrix (rows are rectangular in the pipeline). -/
def ncols (X : Matrix) : ℕ := (X.headD []).length

/-- Column `j` of a matrix. -/
def colAt (X : Matrix) (j : ℕ) : List ℚ := X.map (fun r => r.getD j 0)

/-- Population variance (`ddof=0`), as sklearn's `StandardScaler` uses. -/
def popVar (l : List ℚ) : ℚ :=
  ((l.map (fun x => (x - qmean l) ^ 2)).sum) / l.length

/-- Fitted `StandardScaler` state: per-column mean and scale. -/
structure Scaler where
  mean : List ℚ
  scale : List ℚ
deriving DecidableEq, Repr

/-- `StandardScaler().fit`: per-column mean and scale of the matrix it is fit
on; the scale is the external square root (`sq`) of the population variance,
with zero variance replaced by scale 1 (sklearn's zero handling). -/
def Scaler.fit (sq : ℚ → ℚ) (X : Matrix) : Scaler :=
  { mean := (List.range (ncols X)).map (fun j => qmean (colAt X j))
    scale := (List.range (ncols X)).map (fun j =>
      let v := popVar (colAt X j)
      if v = 0 then 1 else sq v) }

/-- `scaler.transform`: `(x - mean) / scale` column-wise, with the fitted
parameters (never re-fit). -/
def Scaler.transform (s : Scaler) (X : Matrix) : Matrix :=
  X.map (fun row =>
    (row.zip (s.mean.zip s.scale)).map (fun p => (p.1 - p.2.1) / p.2.2))

/-! ### Duration discretizer (external pycox collaborator, modelled) -/

/-- Minimum of a rational list (0 for the empty list). -/
def qlistMin (l : List ℚ) : ℚ := l.foldr min (l.headD 0)

/-- Maximum of a rational list (0 for the empty list). -/
def qlistMax (l : List ℚ) : ℚ := l.foldr max (l.headD 0)

/-- Fitted state of the external `LabTransDiscreteTime` collaborator:
the ordered cut-point grid. -/
structure LabTrans where
  cuts : List ℚ
deriving DecidableEq, Repr

/-- Model of the external pycox `LabTransDiscreteTime(num_durations)` fit:
an equidistant grid of `num_durations` cut points spanning the training
durations.  It is fitted on the training `(time, event)` pairs only; the
internal cut placement is a collaborator detail, the contract being a
fixed fold-local grid derived from the data it is fit on. -/
def LabTrans.fit (num_durations : ℕ) (times : List ℚ) (_events : List ℕ) :
    LabTrans :=
  ⟨(List.range num_durations).map (fun i =>
    qlistMin times +
      i * (qlistMax times - qlistMin times) / ((num_durations : ℚ) - 1))⟩

/-- Model of the collaborator's duration transform: the discrete bin of a
continuous time is the index of the last cut not exceeding it (0 below the
grid). -/
def LabTrans.transformD (lt : LabTrans) (t : ℚ) : ℕ :=
  (lt.cuts.filter (fun c => c ≤ t)).length - 1

/-- `labtrans.out_features`: the number of discrete bins. -/
def LabTrans.out_features (lt : LabTrans) : ℕ := lt.cuts.length

/-! ### Integrated Brier score step (source lines 264–272) -/

/-- `np.unique`: sorted distinct values. -/
def npUnique (l : List ℚ) : List ℚ :=
  List.insertionSort (fun a b => a ≤ b) l.dedup

/-- The times of the primary event (`event == 1`) in a label pair. -/
def primaryTimes (times : List ℚ) (events : List ℕ) : List ℚ :=
  ((times.zip events).filter (fun p => p.2 == 1)).map Prod.fst

/-- `np.trapz ys xs`: trapezoidal rule; 0 when fewer than two points. -/
def trapz : List ℚ → List ℚ → ℚ
  | y1 :: yrest, x1 :: xrest =>
    match yrest, xrest with
    | y2 :: _, x2 :: _ => (x2 - x1) * (y1 + y2) / 2 + trapz yrest xrest
    | _, _ => 0
  | _, _ => 0

/-- Embedding of the manual IBS computation:

    unique_event_times = np.unique(durations_test_fold[events_test_fold == 1])
    time_grid = unique_event_times
    brier_scores = ev_test.brier_score(time_grid)
    ibs_test = np.trapz(brier_scores, time_grid) / (time_grid[-1] - time_grid[0])

`brierAt` is the external `EvalSurv.brier_score` oracle.  `time_grid[-1]` on an
empty grid raises an uncaught IndexError (`Except.error`); a single-point grid
gives the float quotient `0 / 0 = NaN` (`Option` value `none`).  There is no
degenerate-fold check, warning, or skip anywhere in the source. -/
def ibsStep (brierAt : ℚ → ℚ) (times : List ℚ) (events : List ℕ) :
    Except String (Option ℚ) :=
  match npUnique (primaryTimes times events) with
  | [] => .error "IndexError: index -1 is out of bounds for axis 0 with size 0"
  | t :: ts =>
    .ok (qdivN (trapz ((t :: ts).map brierAt) (t :: ts))
      ((t :: ts).getLast (List.cons_ne_nil t ts) - t))

/-! ### The fold orchestrator (source lines 123–273) -/

/-- The prepared fold-local training data handed to the external trainer:
scaled inner-train and inner-validation features and their discretized
labels. -/
structure TrainData where
  Xtr : Matrix
  Xvl : Matrix
  dtr : List ℕ
  etr : List ℕ
  dvl : List ℕ
  evl : List ℕ
deriving DecidableEq, Repr

/-- Oracles for the genuinely external numerical collaborators: the scipy
square root, the sklearn inner splitter, torch training plus validation
concordance, test concordance, CIF prediction, and the Brier score.  Each
receives the data the source passes to the corresponding library call. -/
structure Ext where
  sqrtFn : ℚ → ℚ
  innerSplit : ℕ → ℕ → List ℕ × List ℕ
  valScore : ℕ → TrainData → ℕ → Params → ℚ
  testScore : ℕ → TrainData → Params → Matrix → Labels → ℚ
  cif : ℕ → TrainData → Params → Matrix → ℕ → ℕ → ℕ → ℚ
  brier : ℕ → TrainData → Params → Matrix → Labels → ℚ → ℚ

/-- Static configuration of the run. -/
structure Config where
  cat_dim : ℕ
  num_durations : ℕ
  num_risks : ℕ
  grid : ParamGrid

/-- The fold's inner train/validation index split
(`train_test_split(np.arange(len(X_train_full)), …, random_state=fold_num)`),
an external stratified sampler seeded by the fold number. -/
def foldInner (ext : Ext) (fold : ℕ) (Xtf : Matrix) : List ℕ × List ℕ :=
  ext.innerSplit fold Xtf.length

/-- `X_train = X_train_full[tr_idx]` (a fresh copy, before scaling). -/
def foldXtrain0 (ext : Ext) (fold : ℕ) (Xtf : Matrix) : Matrix :=
  fancyRows Xtf (foldInner ext fold Xtf).1

/-- `X_val = X_train_full[val_idx]` (a fresh copy, before scaling). -/
def foldXval0 (ext : Ext) (fold : ℕ) (Xtf : Matrix) : Matrix :=
  fancyRows Xtf (foldInner ext fold Xtf).2

/-- `y_train`: inner-train labels. -/
def foldYtrain (ext : Ext) (fold : ℕ) (Xtf : Matrix) (ytf : Labels) : Labels :=
  subLabels ytf (foldInner ext fold Xtf).1

/-- `y_val`: inner-validation labels. -/
def foldYval (ext : Ext) (fold : ℕ) (Xtf : Matrix) (ytf : Labels) : Labels :=
  subLabels ytf (foldInner ext fold Xtf).2

/-- The fold's scaler, fit on the inner-train continuous block only
(`scaler.fit_transform(X_train[:, cat_dim:])`). -/
def foldScaler (ext : Ext) (cfg : Config) (fold : ℕ) (Xtf : Matrix) : Scaler :=
  Scaler.fit ext.sqrtFn (contPart cfg.cat_dim (foldXtrain0 ext fold Xtf))

/-- `X_train` after `X_train[:, cat_dim:] = scaler.fit_transform(...)`. -/
def foldXtrainScaled (ext : Ext) (cfg : Config) (fold : ℕ) (Xtf : Matrix) :
    Matrix :=
  setCont cfg.cat_dim (foldXtrain0 ext fold Xtf)
    ((foldScaler ext cfg fold Xtf).transform
      (contPart cfg.cat_dim (foldXtrain0 ext fold Xtf)))

/-- `X_val` after `X_val[:, cat_dim:] = scaler.transform(...)`. -/
def foldXvalScaled (ext : Ext) (cfg : Config) (fold : ℕ) (Xtf : Matrix) :
    Matrix :=
  setCont cfg.cat_dim (foldXval0 ext fold Xtf)
    ((foldScaler ext cfg fold Xtf).transform
      (contPart cfg.cat_dim (foldXval0 ext fold Xtf)))

/-- `X_test` after `X_test[:, cat_dim:] = scaler.transform(...)`: scaled with
the train-fitted parameters. -/
def foldXtestScaled (ext : Ext) (cfg : Config) (fold : ℕ) (Xtf Xte0 : Matrix) :
    Matrix :=
  setCont cfg.cat_dim Xte0
    ((foldScaler ext cfg fold Xtf).transform (contPart cfg.cat_dim Xte0))

/-- The fold's discretization grid, fit on the inner-train labels only
(`labtrans.fit_transform(*y_train)`). -/
def foldLabtrans (ext : Ext) (cfg : Config) (fold : ℕ) (Xtf : Matrix)
    (ytf : Labels) : LabTrans :=
  LabTrans.fit cfg.num_durations (foldYtrain ext fold Xtf ytf).times
    (foldYtrain ext fold Xtf ytf).events

/-- `durations_train`: inner-train times discretized by the fold's grid. -/
def foldDurTrain (ext : Ext) (cfg : Config) (fold : ℕ) (Xtf : Matrix)
    (ytf : Labels) : List ℕ :=
  (foldYtrain ext fold Xtf ytf).times.map
    (foldLabtrans ext cfg fold Xtf ytf).transformD

/-- `durations_val`: inner-validation times discretized by the same
(train-fitted) grid, `labtrans.transform(*y_val)`. -/
def foldDurVal (ext : Ext) (cfg : Config) (fold : ℕ) (Xtf : Matrix)
    (ytf : Labels) : List ℕ :=
  (foldYval ext fold Xtf ytf).times.map
    (foldLabtrans ext cfg fold Xtf ytf).transformD

/-- The prepared fold-local data passed to every `model.fit` call of the
fold's grid search. -/
def foldTrainData (ext : Ext) (cfg : Config) (fold : ℕ) (Xtf : Matrix)
    (ytf : Labels) : TrainData :=
  { Xtr := foldXtrainScaled ext cfg fold Xtf
    Xvl := foldXvalScaled ext cfg fold Xtf
    dtr := foldDurTrain ext cfg fold Xtf ytf
    etr := (foldYtrain ext fold Xtf ytf).events
    dvl := foldDurVal ext cfg fold Xtf ytf
    evl := (foldYval ext fold Xtf ytf).events }

/-- One persisted per-fold output: the CSV file name, the prediction table as
an ordered list of (column name, column values), and the fold's two metrics
(`ibs = none` is a NaN that the source appends to `fold_ibss` unchecked). -/
structure FoldOut where
  fileName : String
  table : List (String × List ℚ)
  cindex : ℚ
  ibs : Option ℚ
deriving DecidableEq, Repr

/-- Placeholder fold output, used only as the default of list lookups. -/
def defaultFoldOut : FoldOut := ⟨"", [], 0, none⟩

/-- The prediction column name `f'pred_event{r+1}_time{t_val}'`. -/
def predColName (r : ℕ) (t : ℚ) : String :=
  "pred_event" ++ toString r ++ "_time" ++ toString t

/-- The fold's output DataFrame `df_out` (source lines 234–242): the raw test
times under `'time'`, the raw event codes under `'delta'`, then one column per
risk and per grid time holding `cif_test[r][t_idx, :]`. -/
def mkTable (num_risks : ℕ) (duration_index : List ℚ)
    (cifAt : ℕ → ℕ → ℕ → ℚ) (yte : Labels) : List (String × List ℚ) :=
  ("time", yte.times) ::
  ("delta", yte.events.map (fun e => (e : ℚ))) ::
  (List.range num_risks).flatMap (fun r =>
    duration_index.enum.map (fun p =>
      (predColName (r + 1) p.2,
        (List.range yte.times.length).map (fun subj => cifAt r p.1 subj))))

/-- The validation concordance of grid-search iteration `i`: the external
trainer is run on the fold's prepared data with the `i`-th combination of the
full Cartesian product (one fresh predictor per iteration). -/
def foldScore (ext : Ext) (cfg : Config) (fold : ℕ) (Xtf : Matrix)
    (ytf : Labels) (i : ℕ) : ℚ :=
  ext.valScore fold (foldTrainData ext cfg fold Xtf ytf) i
    ((gridCombos cfg.grid).getD i ⟨0, 0, 0, 0, 0⟩)

/-- One iteration of the outer repeated-CV loop, after the outer slices have
been taken: inner split, fold-local scaling, fold-local discretization, grid
search, then — in source order — the `best_params` dereference (an uncaught
TypeError when the grid was empty leaves it `None`), the prediction table,
the test concordance, and the manual IBS computation.  No exception handling
surrounds any of it. -/
def runFoldCore (ext : Ext) (cfg : Config) (fold : ℕ)
    (Xtf Xte0 : Matrix) (ytf yte : Labels) : Except String FoldOut :=
  match bestParams (foldScore ext cfg fold Xtf ytf) (gridCombos cfg.grid) with
  | none => .error "TypeError: NoneType object is not subscriptable"
  | some p =>
    match ibsStep
        (ext.brier fold (foldTrainData ext cfg fold Xtf ytf) p
          (foldXtestScaled ext cfg fold Xtf Xte0) yte)
        yte.times yte.events with
    | .error e => .error e
    | .ok v =>
      .ok { fileName := "fold_" ++ toString (fold + 1) ++ "_predictions.csv"
            table := mkTable cfg.num_risks
              (foldLabtrans ext cfg fold Xtf ytf).cuts
              (ext.cif fold (foldTrainData ext cfg fold Xtf ytf) p
                (foldXtestScaled ext cfg fold Xtf Xte0)) yte
            cindex := ext.testScore fold (foldTrainData ext cfg fold Xtf ytf) p
              (foldXtestScaled ext cfg fold Xtf Xte0) yte
            ibs := v }

/-- One outer fold: the four outer slices are numpy fancy-indexed copies of
the global arrays (lines 130–132); everything else reads the globals only
through them. -/
def runFold (ext : Ext) (cfg : Config) (X_all : Matrix) (y : Labels)
    (fold : ℕ) (train_idx test_idx : List ℕ) : Except String FoldOut :=
  runFoldCore ext cfg fold (fancyRows X_all train_idx)
    (fancyRows X_all test_idx) (subLabels y train_idx) (subLabels y test_idx)

/-- The only state carried across folds: the two metric lists
(`fold_c_indexes`, `fold_ibss`) and the persisted outputs.  No scaler, grid,
or predictor lives here. -/
structure RunState where
  cindexes : List ℚ
  ibss : List (Option ℚ)
  outputs : List FoldOut
deriving DecidableEq, Repr

/-- The outer repeated-CV loop over the splits, with `fold` the enumeration
counter.  A fold's uncaught exception aborts the whole remaining run (there is
no try/except); otherwise the fold's metrics and output are appended. -/
def runFolds (ext : Ext) (cfg : Config) (X_all : Matrix) (y : Labels) :
    List (List ℕ × List ℕ) → ℕ → RunState → Except String RunState
  | [], _, st => .ok st
  | s :: rest, fold, st =>
    match runFold ext cfg X_all y fold s.1 s.2 with
    | .error e => .error e
    | .ok out =>
      runFolds ext cfg X_all y rest (fold + 1)
        ⟨st.cindexes ++ [out.cindex], st.ibss ++ [out.ibs],
          st.outputs ++ [out]⟩

/-! ### Network construction and the number of risks (source lines 48, 66–97) -/

/-- Architecture of one `tt.practical.MLPVanilla` (weights are external). -/
structure MLPSpec where
  in_features : ℕ
  hidden : List ℕ
  out_features : ℕ
  dropout : ℚ
deriving DecidableEq, Repr

/-- The `CauseSpecificNet` module: a shared MLP and one risk-specific MLP per
risk. -/
structure CauseSpecificNet where
  shared_net : MLPSpec
  risk_nets : List MLPSpec
deriving DecidableEq, Repr

/-- `CauseSpecificNet.__init__`: the shared net takes all but the last shared
width as hidden layers and the last as its output; the loop
`for _ in range(num_risks)` appends one fresh risk net per risk. -/
def mkCauseSpecificNet (in_features : ℕ)
    (num_nodes_shared num_nodes_indiv : List ℕ)
    (num_risks out_features : ℕ) (dropout : ℚ) : CauseSpecificNet :=
  { shared_net :=
      ⟨in_features, num_nodes_shared.dropLast, num_nodes_shared.getLastD 0,
        dropout⟩
    risk_nets := (List.range num_risks).map (fun _ =>
      ⟨num_nodes_shared.getLastD 0, num_nodes_indiv, out_features, dropout⟩) }

/-- `num_risks = int(df['event'].max())`: the largest event code present in
the loaded (nonempty) dataset, not a configured constant. -/
def numRisks (events : List ℕ) : ℕ := events.foldl max 0

/-! ### Concrete fixtures for evaluating the pipeline on small inputs -/

/-- Concrete external oracles for evaluation: an identity root, a fixed inner
split, and constant scores/predictions. -/
def ext0 : Ext :=
  { sqrtFn := fun x => x
    innerSplit := fun _ _ => ([0, 1], [2])
    valScore := fun _ _ _ _ => 0
    testScore := fun _ _ _ _ _ => 1/2
    cif := fun _ _ _ _ _ _ _ => 0
    brier := fun _ _ _ _ _ _ => 0 }

/-- A singleton hyperparameter grid (the source's own `param_grid` shape). -/
def grid0 : ParamGrid := ⟨[1/1000], [1/5], [1/10], [1/2], [128]⟩

/-- Concrete configuration: one one-hot column, a 2-bin grid, one risk. -/
def cfg0 : Config := ⟨1, 2, 1, grid0⟩

/-- Concrete configuration whose hyperparameter grid is empty. -/
def cfgE : Config := ⟨1, 2, 1, ⟨[], [1/5], [1/10], [1/2], [128]⟩⟩

/-- A 4-subject feature matrix (one one-hot column, one continuous). -/
def X0 : Matrix := [[1, 2], [0, 3], [1, 4], [0, 5]]

/-- Labels whose subject 3 is a primary event: a test fold `[3]` has exactly
one unique primary-event time. -/
def y0 : Labels := ⟨[10, 20, 30, 40], [1, 0, 2, 1]⟩

/-- Labels whose subject 3 is censored: a test fold `[3]` has no
primary-event time at all. -/
def y1 : Labels := ⟨[10, 20, 30, 40], [1, 0, 2, 0]⟩

/-- Labels with two distinct primary-event times in the test fold `[2, 3]`. -/
def y2 : Labels := ⟨[10, 20, 30, 40], [1, 0, 1, 1]⟩

/-- The aggregator input sequence of the specification's known-value test. -/
def data6 : List ℚ := [7/10, 18/25, 3/4, 37/50, 73/100]

/-! ### Grid-search lemmas -/

lemma gridSearch_zero (score : ℕ → ℚ) : gridSearch score 0 = ⟨none, none⟩ := rfl

lemma gridSearch_succ (score : ℕ → ℚ) (n : ℕ) :
    gridSearch score (n + 1) = gsStep score (gridSearch score n) n := by
  unfold gridSearch
  rw [List.range_succ, List.foldl_append]
  rfl

/-- The grid-search loop retains the first iteration attaining the maximal
validation score: every iteration is examined, the retained score is maximal,
and every strictly earlier iteration scored strictly lower. -/
lemma gridSearch_first_argmax (score : ℕ → ℚ) :
    ∀ n, 0 < n → ∃ i, i < n ∧ gridSearch score n = ⟨some (score i), some i⟩ ∧
      (∀ j, j < n → score j ≤ score i) ∧ ∀ j, j < i → score j < score i := by
  intro n
  induction n with
  | zero => intro h; exact absurd h (by omega)
  | succ m ih =>
    intro _
    rcases Nat.eq_zero_or_pos m with hm | hm
    · subst hm
      refine ⟨0, by omega, ?_, ?_, ?_⟩
      · rw [gridSearch_succ, gridSearch_zero]; rfl
      · intro j hj
        have hj0 : j = 0 := by omega
        subst hj0
        exact le_refl _
      · intro j hj
        exact absurd hj (by omega)
    · obtain ⟨i, hilt, hst, hmax, hfirst⟩ := ih hm
      rw [gridSearch_succ, hst]
      by_cases hlt : score i < score m
      · refine ⟨m, by omega, ?_, ?_, ?_⟩
        · simp [gsStep, hlt]
        · intro j hj
          rcases Nat.lt_succ_iff_lt_or_eq.mp hj with h | h
          · exact le_of_lt (lt_of_le_of_lt (hmax j h) hlt)
          · subst h; exact le_refl _
        · intro j hj
          exact lt_of_le_of_lt (hmax j hj) hlt
      · refine ⟨i, by omega, ?_, ?_, ?_⟩
        · simp [gsStep, hlt]
        · intro j hj
          rcases Nat.lt_succ_iff_lt_or_eq.mp hj with h | h
          · exact hmax j h
          · subst h; exact not_lt.mp hlt
        · exact hfirst

/-- `best_params` after a nonempty grid search is the first-argmax
combination. -/
lemma bestParams_first_argmax (score : ℕ → ℚ) (combos : List Params)
    (h : combos ≠ []) :
    ∃ i, ∃ hi : i < combos.length,
      bestParams score combos = some (combos.get ⟨i, hi⟩) ∧
      (∀ j, j < combos.length → score j ≤ score i) ∧
      ∀ j, j < i → score j < score i := by
  obtain ⟨i, hilt, hst, hmax, hfirst⟩ :=
    gridSearch_first_argmax score combos.length (List.length_pos.mpr h)
  refine ⟨i, hilt, ?_, hmax, hfirst⟩
  rw [bestParams, hst]
  simp [List.get?_eq_get hilt]

lemma length_gridCombos (g : ParamGrid) :
    (gridCombos g).length = g.lr.length * g.alpha.length * g.sigma.length *
      g.dropout.length * g.batch_size.length := by
  simp [gridCombos, List.length_product]

lemma mem_gridCombos (g : ParamGrid) (p : Params) :
    p ∈ gridCombos g ↔ p.lr ∈ g.lr ∧ p.alpha ∈ g.alpha ∧ p.sigma ∈ g.sigma ∧
      p.dropout ∈ g.dropout ∧ p.batch_size ∈ g.batch_size := by
  constructor
  · intro hp
    simp only [gridCombos, List.mem_map] at hp
    obtain ⟨⟨⟨⟨⟨a, b⟩, c⟩, d⟩, e⟩, hx, rfl⟩ := hp
    simp only [List.mem_product] at hx
    exact ⟨hx.1.1.1.1, hx.1.1.1.2, hx.1.1.2, hx.1.2, hx.2⟩
  · intro hp
    simp only [gridCombos, List.mem_map]
    refine ⟨((((p.lr, p.alpha), p.sigma), p.dropout), p.batch_size), ?_, rfl⟩
    simp only [List.mem_product]
    exact ⟨⟨⟨⟨hp.1, hp.2.1⟩, hp.2.2.1⟩, hp.2.2.2.1⟩, hp.2.2.2.2⟩

/-! ### Slice-assignment lemmas -/

lemma length_transform (s : Scaler) (X : Matrix) :
    (s.transform X).length = X.length :=
  List.length_map _ _

lemma length_contPart (cd : ℕ) (X : Matrix) :
    (contPart cd X).length = X.length :=
  List.length_map _ _

/-- The slice assignment `X[:, cat_dim:] = M` leaves the one-hot block
unchanged. -/
lemma ohePart_setCont (cd : ℕ) :
    ∀ (X M : Matrix), (∀ r ∈ X, cd ≤ r.length) → M.length = X.length →
      ohePart cd (setCont cd X M) = ohePart cd X := by
  intro X
  induction X with
  | nil =>
    intro M _ _
    cases M <;> rfl
  | cons r X ih =>
    intro M hr hlen
    match M with
    | [] => exact absurd hlen (by simp)
    | m :: M =>
      have h1 : cd ≤ r.length := hr r (by simp)
      have htk : (r.take cd).length = cd := by
        simp [List.length_take, Nat.min_eq_left h1]
      show List.take cd (r.take cd ++ m) :: ohePart cd (setCont cd X M) =
        r.take cd :: ohePart cd X
      rw [List.take_append_of_le_length (le_of_eq htk.symm), List.take_take,
        Nat.min_self,
        ih M (fun q hq => hr q (by simp [hq])) (by simpa using hlen)]

/-- The slice assignment `X[:, cat_dim:] = M` installs exactly `M` as the
continuous block. -/
lemma contPart_setCont (cd : ℕ) :
    ∀ (X M : Matrix), (∀ r ∈ X, cd ≤ r.length) → M.length = X.length →
      contPart cd (setCont cd X M) = M := by
  intro X
  induction X with
  | nil =>
    intro M _ hlen
    cases M with
    | nil => rfl
    | cons m M => exact absurd hlen (by simp)
  | cons r X ih =>
    intro M hr hlen
    match M with
    | [] => exact absurd hlen (by simp)
    | m :: M =>
      have h1 : cd ≤ r.length := hr r (by simp)
      have htk : (r.take cd).length = cd := by
        simp [List.length_take, Nat.min_eq_left h1]
      show List.drop cd (r.take cd ++ m) :: contPart cd (setCont cd X M) =
        m :: M
      rw [List.drop_append_of_le_length (le_of_eq htk.symm),
        List.drop_eq_nil_of_le (le_of_eq htk), List.nil_append,
        ih M (fun q hq => hr q (by simp [hq])) (by simpa using hlen)]

/-! ### Run-loop lemmas -/

/-- An uncaught exception in a fold aborts the whole remaining run. -/
lemma runFolds_cons_error (ext : Ext) (cfg : Config) (X : Matrix) (y : Labels)
    (s : List ℕ × List ℕ) (rest : List (List ℕ × List ℕ)) (fold : ℕ)
    (st : RunState) (e : String)
    (h : runFold ext cfg X y fold s.1 s.2 = .error e) :
    runFolds ext cfg X y (s :: rest) fold st = .error e := by
  unfold runFolds
  rw [h]

/-- A successful fold appends its metrics — including a NaN calibration
value — and its output, unconditionally. -/
lemma runFolds_cons_ok (ext : Ext) (cfg : Config) (X : Matrix) (y : Labels)
    (s : List ℕ × List ℕ) (rest : List (List ℕ × List ℕ)) (fold : ℕ)
    (st : RunState) (out : FoldOut)
    (h : runFold ext cfg X y fold s.1 s.2 = .ok out) :
    runFolds ext cfg X y (s :: rest) fold st =
      runFolds ext cfg X y rest (fold + 1)
        ⟨st.cindexes ++ [out.cindex], st.ibss ++ [out.ibs],
          st.outputs ++ [out]⟩ := by
  conv_lhs => rw [runFolds]
  rw [h]

/-- A successful run appends one output per split, and the `k`-th appended
output is exactly the result of running fold `fold + k` on its own split —
a pure function of the globals and that split, with no dependence on the
state accumulated from other folds. -/
lemma runFolds_ok_outputs (ext : Ext) (cfg : Config) (X : Matrix)
    (y : Labels) :
    ∀ (splits : List (List ℕ × List ℕ)) (fold : ℕ) (st st' : RunState),
      runFolds ext cfg X y splits fold st = .ok st' →
      ∃ tail, st'.outputs = st.outputs ++ tail ∧
        tail.length = splits.length ∧
        ∀ k, (hk : k < splits.length) →
          runFold ext cfg X y (fold + k) (splits.get ⟨k, hk⟩).1
            (splits.get ⟨k, hk⟩).2 = .ok (tail.getD k defaultFoldOut) := by
  intro splits
  induction splits with
  | nil =>
    intro fold st st' h
    have hst : st = st' := by simpa [runFolds] using h
    subst hst
    exact ⟨[], by simp, rfl, fun k hk => absurd hk (by simp)⟩
  | cons s rest ih =>
    intro fold st st' h
    unfold runFolds at h
    cases hr : runFold ext cfg X y fold s.1 s.2 with
    | error e =>
      rw [hr] at h
      exact absurd h (by simp)
    | ok out =>
      rw [hr] at h
      obtain ⟨tail, hout, hlen, hk⟩ := ih (fold + 1) _ st' h
      refine ⟨out :: tail, by simpa using hout, by simp [hlen], ?_⟩
      intro k hklt
      cases k with
      | zero => simpa using hr
      | succ j =>
        have hj : j < rest.length := by simpa using hklt
        have hres := hk j hj
        have harith : fold + (j + 1) = fold + 1 + j := by omega
        simpa [harith] using hres

/-! ### Fold-body characterization lemmas -/

/-- Inversion: what a successful fold's output necessarily is. -/
lemma runFoldCore_ok_inv (ext : Ext) (cfg : Config) (fold : ℕ)
    (Xtf Xte0 : Matrix) (ytf yte : Labels) (out : FoldOut)
    (h : runFoldCore ext cfg fold Xtf Xte0 ytf yte = .ok out) :
    ∃ p v,
      bestParams (foldScore ext cfg fold Xtf ytf) (gridCombos cfg.grid) =
        some p ∧
      ibsStep (ext.brier fold (foldTrainData ext cfg fold Xtf ytf) p
          (foldXtestScaled ext cfg fold Xtf Xte0) yte)
        yte.times yte.events = .ok v ∧
      out = { fileName := "fold_" ++ toString (fold + 1) ++ "_predictions.csv"
              table := mkTable cfg.num_risks
                (foldLabtrans ext cfg fold Xtf ytf).cuts
                (ext.cif fold (foldTrainData ext cfg fold Xtf ytf) p
                  (foldXtestScaled ext cfg fold Xtf Xte0)) yte
              cindex := ext.testScore fold
                (foldTrainData ext cfg fold Xtf ytf) p
                (foldXtestScaled ext cfg fold Xtf Xte0) yte
              ibs := v } := by
  cases hb : bestParams (foldScore ext cfg fold Xtf ytf) (gridCombos cfg.grid) with
  | none =>
    have hcore : runFoldCore ext cfg fold Xtf Xte0 ytf yte =
        .error "TypeError: NoneType object is not subscriptable" := by
      unfold runFoldCore
      rw [hb]
    rw [hcore] at h
    exact absurd h (by simp)
  | some p =>
    have hcore : runFoldCore ext cfg fold Xtf Xte0 ytf yte =
        match ibsStep (ext.brier fold (foldTrainData ext cfg fold Xtf ytf) p
            (foldXtestScaled ext cfg fold Xtf Xte0) yte)
          yte.times yte.events with
        | .error e => .error e
        | .ok v =>
          .ok { fileName := "fold_" ++ toString (fold + 1) ++ "_predictions.csv"
                table := mkTable cfg.num_risks
                  (foldLabtrans ext cfg fold Xtf ytf).cuts
                  (ext.cif fold (foldTrainData ext cfg fold Xtf ytf) p
                    (foldXtestScaled ext cfg fold Xtf Xte0)) yte
                cindex := ext.testScore fold
                  (foldTrainData ext cfg fold Xtf ytf) p
                  (foldXtestScaled ext cfg fold Xtf Xte0) yte
                ibs := v } := by
      unfold runFoldCore
      rw [hb]
    rw [hcore] at h
    cases hi : ibsStep (ext.brier fold (foldTrainData ext cfg fold Xtf ytf) p
        (foldXtestScaled ext cfg fold Xtf Xte0) yte) yte.times yte.events with
    | error e =>
      rw [hi] at h
      exact absurd h (by simp)
    | ok v =>
      rw [hi] at h
      exact ⟨p, v, rfl, hi, by simpa using h.symm⟩

/-- An empty grid leaves `best_params = None` after the search. -/
lemma bestParams_nil (score : ℕ → ℚ) : bestParams score [] = none := rfl

/-- A one-combination grid always retains that combination. -/
lemma bestParams_singleton (score : ℕ → ℚ) (p : Params) :
    bestParams score [p] = some p := by
  unfold bestParams
  show ((gridSearch score 1).best_idx.bind fun i => [p].get? i) = some p
  rw [gridSearch_succ, gridSearch_zero]
  rfl

/-- Construction: the fold succeeds when the grid search retained a
combination and the IBS step did not raise. -/
lemma runFoldCore_ok_mk (ext : Ext) (cfg : Config) (fold : ℕ)
    (Xtf Xte0 : Matrix) (ytf yte : Labels) (p : Params) (v : Option ℚ)
    (hb : bestParams (foldScore ext cfg fold Xtf ytf) (gridCombos cfg.grid) =
      some p)
    (hi : ibsStep (ext.brier fold (foldTrainData ext cfg fold Xtf ytf) p
        (foldXtestScaled ext cfg fold Xtf Xte0) yte)
      yte.times yte.events = .ok v) :
    runFoldCore ext cfg fold Xtf Xte0 ytf yte = .ok
      { fileName := "fold_" ++ toString (fold + 1) ++ "_predictions.csv"
        table := mkTable cfg.num_risks (foldLabtrans ext cfg fold Xtf ytf).cuts
          (ext.cif fold (foldTrainData ext cfg fold Xtf ytf) p
            (foldXtestScaled ext cfg fold Xtf Xte0)) yte
        cindex := ext.testScore fold (foldTrainData ext cfg fold Xtf ytf) p
          (foldXtestScaled ext cfg fold Xtf Xte0) yte
        ibs := v } := by
  have hcore : runFoldCore ext cfg fold Xtf Xte0 ytf yte =
      match ibsStep (ext.brier fold (foldTrainData ext cfg fold Xtf ytf) p
          (foldXtestScaled ext cfg fold Xtf Xte0) yte)
        yte.times yte.events with
      | .error e => .error e
      | .ok v =>
        .ok { fileName := "fold_" ++ toString (fold + 1) ++ "_predictions.csv"
              table := mkTable cfg.num_risks
                (foldLabtrans ext cfg fold Xtf ytf).cuts
                (ext.cif fold (foldTrainData ext cfg fold Xtf ytf) p
                  (foldXtestScaled ext cfg fold Xtf Xte0)) yte
              cindex := ext.testScore fold
                (foldTrainData ext cfg fold Xtf ytf) p
                (foldXtestScaled ext cfg fold Xtf Xte0) yte
              ibs := v } := by
    unfold runFoldCore
    rw [hb]
  rw [hcore, hi]

/-- The uncaught `TypeError` when the grid search retained nothing. -/
lemma runFoldCore_none (ext : Ext) (cfg : Config) (fold : ℕ)
    (Xtf Xte0 : Matrix) (ytf yte : Labels)
    (hb : bestParams (foldScore ext cfg fold Xtf ytf) (gridCombos cfg.grid) =
      none) :
    runFoldCore ext cfg fold Xtf Xte0 ytf yte =
      .error "TypeError: NoneType object is not subscriptable" := by
  unfold runFoldCore
  rw [hb]

/-- An exception raised by the IBS step propagates out of the fold. -/
lemma runFoldCore_ibs_error (ext : Ext) (cfg : Config) (fold : ℕ)
    (Xtf Xte0 : Matrix) (ytf yte : Labels) (p : Params) (e : String)
    (hb : bestParams (foldScore ext cfg fold Xtf ytf) (gridCombos cfg.grid) =
      some p)
    (hi : ibsStep (ext.brier fold (foldTrainData ext cfg fold Xtf ytf) p
        (foldXtestScaled ext cfg fold Xtf Xte0) yte)
      yte.times yte.events = .error e) :
    runFoldCore ext cfg fold Xtf Xte0 ytf yte = .error e := by
  have hcore : runFoldCore ext cfg fold Xtf Xte0 ytf yte =
      match ibsStep (ext.brier fold (foldTrainData ext cfg fold Xtf ytf) p
          (foldXtestScaled ext cfg fold Xtf Xte0) yte)
        yte.times yte.events with
      | .error e => .error e
      | .ok v =>
        .ok { fileName := "fold_" ++ toString (fold + 1) ++ "_predictions.csv"
              table := mkTable cfg.num_risks
                (foldLabtrans ext cfg fold Xtf ytf).cuts
                (ext.cif fold (foldTrainData ext cfg fold Xtf ytf) p
                  (foldXtestScaled ext cfg fold Xtf Xte0)) yte
              cindex := ext.testScore fold
                (foldTrainData ext cfg fold Xtf ytf) p
                (foldXtestScaled ext cfg fold Xtf Xte0) yte
              ibs := v } := by
    unfold runFoldCore
    rw [hb]
  rw [hcore, hi]

/-- Column names of the fold's output DataFrame: `time`, then `delta`, then
one prediction column per risk and per grid time, in grid order. -/
lemma map_fst_enum_map (f : ℚ → String) (g : ℕ × ℚ → List ℚ) (di : List ℚ) :
    (di.enum.map (fun p => (f p.2, g p))).map Prod.fst = di.map f := by
  rw [List.map_map]
  conv_rhs => rw [← List.enum_map_snd di, List.map_map]
  rfl

lemma mkTable_names (nr : ℕ) (di : List ℚ) (cifAt : ℕ → ℕ → ℕ → ℚ)
    (yte : Labels) :
    (mkTable nr di cifAt yte).map Prod.fst =
      "time" :: "delta" :: (List.range nr).flatMap
        (fun r => di.map (fun t => predColName (r + 1) t)) := by
  simp only [mkTable, List.map_cons, List.map_flatMap]
  simp only [fun r : ℕ => map_fst_enum_map (fun t => predColName (r + 1) t)
    (fun p => (List.range yte.times.length).map (fun subj => cifAt r p.1 subj))
    di]

/-! ### Fold-max lemmas for the number of risks -/

lemma le_foldl_max (l : List ℕ) : ∀ a, a ≤ l.foldl max a := by
  induction l with
  | nil => intro a; exact le_refl a
  | cons x l ih =>
    intro a
    exact le_trans (Nat.le_max_left a x) (ih (max a x))

lemma mem_le_foldl_max (l : List ℕ) : ∀ a e, e ∈ l → e ≤ l.foldl max a := by
  induction l with
  | nil => intro a e h; exact absurd h (by simp)
  | cons x l ih =>
    intro a e h
    rcases List.mem_cons.mp h with rfl | h
    · exact le_trans (Nat.le_max_right a e) (le_foldl_max l (max a e))
    · exact ih (max a x) e h

lemma foldl_max_le (l : List ℕ) : ∀ a m, a ≤ m → (∀ e ∈ l, e ≤ m) →
    l.foldl max a ≤ m := by
  induction l with
  | nil => intro a m ha _; exact ha
  | cons x l ih =>
    intro a m ha h
    exact ih (max a x) m (Nat.max_le.mpr ⟨ha, h x (by simp)⟩)
      (fun e he => h e (by simp [he]))

/-! ### NaN-propagation helper lemmas -/

lemma omul_none_left (y : Option ℚ) : omul none y = none := by cases y <;> rfl

lemma osub_none_right (x : Option ℚ) : osub x none = none := by cases x <;> rfl

lemma oadd_none_right (x : Option ℚ) : oadd x none = none := by cases x <;> rfl

/-! ### Claim C1 -/

/-- Claim C1 (amended): the fold-level IBS computation has no degenerate-fold
handling.  With exactly one unique primary-event time the time range is zero,
so the score is the float NaN `0 / 0`, which the loop appends to the
calibration aggregate like any other value; with no unique primary-event time
the `time_grid[-1]` lookup raises an IndexError, and — the loop having no
exception handling — any fold error aborts the entire remaining run. -/
theorem C1_no_degenerate_fold_handling (brierAt : ℚ → ℚ) (times : List ℚ)
    (events : List ℕ) (ext : Ext) (cfg : Config) (X : Matrix) (y : Labels)
    (s : List ℕ × List ℕ) (rest : List (List ℕ × List ℕ)) (fold : ℕ)
    (st : RunState) :
    (∀ t, npUnique (primaryTimes times events) = [t] →
      ibsStep brierAt times events = .ok none) ∧
    (npUnique (primaryTimes times events) = [] →
      ibsStep brierAt times events =
        .error "IndexError: index -1 is out of bounds for axis 0 with size 0") ∧
    (∀ e, runFold ext cfg X y fold s.1 s.2 = .error e →
      runFolds ext cfg X y (s :: rest) fold st = .error e) ∧
    (∀ out, runFold ext cfg X y fold s.1 s.2 = .ok out →
      runFolds ext cfg X y (s :: rest) fold st =
        runFolds ext cfg X y rest (fold + 1)
          ⟨st.cindexes ++ [out.cindex], st.ibss ++ [out.ibs],
            st.outputs ++ [out]⟩) := by
  refine ⟨?_, ?_, ?_, ?_⟩
  · intro t h
    unfold ibsStep
    rw [h]
    simp [qdivN, trapz]
  · intro h
    unfold ibsStep
    rw [h]
  · intro e h
    exact runFolds_cons_error _ _ _ _ _ _ _ _ _ h
  · intro out h
    exact runFolds_cons_ok _ _ _ _ _ _ _ _ _ h

/-- Claim C1 witness: a fold whose test labels hold a single primary event at
time 40 yields the NaN calibration value. -/
theorem C1_witness : ibsStep (fun _ => 0) [40] [1] = .ok none :=
  (C1_no_degenerate_fold_handling (fun _ => 0) [40] [1] ext0 cfg0 X0 y0
    ([0, 1, 2], [3]) [] 0 ⟨[], [], []⟩).1 40 rfl

/-- Claim C1 counterexample: on a concrete run whose single test fold has one
unique primary-event time, the run succeeds with the NaN (`none`) calibration
value included in the aggregate — it is not skipped, and nothing is reported;
and on a run whose test fold has no primary event, the whole repeated-CV run
aborts with an uncaught IndexError, contradicting both the degenerate-fold
policy and the no-fold-aborts-the-run policy. -/
theorem C1_counterexample :
    (runFolds ext0 cfg0 X0 y0 [([0, 1, 2], [3])] 0 ⟨[], [], []⟩).toOption.map
        RunState.ibss = some [none] ∧
    runFolds ext0 cfg0 X0 y1 [([0, 1, 2], [3])] 0 ⟨[], [], []⟩ =
      .error "IndexError: index -1 is out of bounds for axis 0 with size 0" := by
  constructor
  · have hb : bestParams (foldScore ext0 cfg0 0 (fancyRows X0 [0, 1, 2])
        (subLabels y0 [0, 1, 2])) (gridCombos cfg0.grid) =
        some ⟨1/1000, 1/5, 1/10, 1/2, 128⟩ := by
      rw [show gridCombos cfg0.grid = [⟨1/1000, 1/5, 1/10, 1/2, 128⟩] from rfl]
      exact bestParams_singleton _ _
    have hi : ibsStep (ext0.brier 0
        (foldTrainData ext0 cfg0 0 (fancyRows X0 [0, 1, 2]) (subLabels y0 [0, 1, 2]))
        ⟨1/1000, 1/5, 1/10, 1/2, 128⟩
        (foldXtestScaled ext0 cfg0 0 (fancyRows X0 [0, 1, 2]) (fancyRows X0 [3]))
        (subLabels y0 [3]))
        (subLabels y0 [3]).times (subLabels y0 [3]).events = .ok none := by
      rw [show (subLabels y0 [3]).times = [40] from rfl,
        show (subLabels y0 [3]).events = [1] from rfl]
      unfold ibsStep
      rw [show npUnique (primaryTimes [40] [1]) = [40] from rfl]
      simp [qdivN, trapz]
    have hcore := runFoldCore_ok_mk ext0 cfg0 0 (fancyRows X0 [0, 1, 2])
      (fancyRows X0 [3]) (subLabels y0 [0, 1, 2]) (subLabels y0 [3]) _ none hb hi
    rw [runFolds_cons_ok ext0 cfg0 X0 y0 ([0, 1, 2], [3]) [] 0 ⟨[], [], []⟩ _ hcore]
    rfl
  · have hi : ibsStep (ext0.brier 0
        (foldTrainData ext0 cfg0 0 (fancyRows X0 [0, 1, 2]) (subLabels y1 [0, 1, 2]))
        ⟨1/1000, 1/5, 1/10, 1/2, 128⟩
        (foldXtestScaled ext0 cfg0 0 (fancyRows X0 [0, 1, 2]) (fancyRows X0 [3]))
        (subLabels y1 [3]))
        (subLabels y1 [3]).times (subLabels y1 [3]).events =
        .error "IndexError: index -1 is out of bounds for axis 0 with size 0" := by
      rw [show (subLabels y1 [3]).times = [40] from rfl,
        show (subLabels y1 [3]).events = [0] from rfl]
      unfold ibsStep
      rw [show npUnique (primaryTimes [40] [0]) = [] from rfl]
    have hb : bestParams (foldScore ext0 cfg0 0 (fancyRows X0 [0, 1, 2])
        (subLabels y1 [0, 1, 2])) (gridCombos cfg0.grid) =
        some ⟨1/1000, 1/5, 1/10, 1/2, 128⟩ := by
      rw [show gridCombos cfg0.grid = [⟨1/1000, 1/5, 1/10, 1/2, 128⟩] from rfl]
      exact bestParams_singleton _ _
    have hcore := runFoldCore_ibs_error ext0 cfg0 0 (fancyRows X0 [0, 1, 2])
      (fancyRows X0 [3]) (subLabels y1 [0, 1, 2]) (subLabels y1 [3]) _ _ hb hi
    exact runFolds_cons_error ext0 cfg0 X0 y1 ([0, 1, 2], [3]) [] 0 ⟨[], [], []⟩
      _ hcore

/-! ### Claim C2 -/

/-- Claim C2 (amended): the confidence-interval aggregator performs no sample
size check whatsoever — for a sequence of fewer than two values it does not
fail with an "insufficient sample size" error but returns the triple
`(mean, NaN, NaN)` (with `NaN` mean as well for an empty sequence): the
standard error and t-quantile are NaN, which silently propagates into both
bounds.  In particular it indeed never returns the degenerate
`(mean, mean, mean)`. -/
theorem C2_no_size_check (sq : ℚ → ℚ) (tq : ℚ → ℤ → ℚ) (data : List ℚ)
    (c : ℚ) (h : data.length < 2) :
    (compute_confidence_interval sq tq data c).2.1 = none ∧
    (compute_confidence_interval sq tq data c).2.2 = none ∧
    ∀ x, data = [x] →
      compute_confidence_interval sq tq data c = (some x, none, none) := by
  have hsem : statsSem sq data = none := by simp [statsSem, h]
  refine ⟨?_, ?_, ?_⟩
  · simp [compute_confidence_interval, hsem, omul_none_left, osub_none_right]
  · simp [compute_confidence_interval, hsem, omul_none_left, oadd_none_right]
  · intro x hx
    subst hx
    simp [compute_confidence_interval, hsem, omul_none_left, osub_none_right,
      oadd_none_right, npMean, qmean]

/-- Claim C2 witness: the single-element sequence `[0.7]` yields
`(0.7, NaN, NaN)`. -/
theorem C2_witness :
    compute_confidence_interval (fun x => x) (fun q _ => q) [7/10] (95/100) =
      (some (7/10), none, none) :=
  (C2_no_size_check (fun x => x) (fun q _ => q) [7/10] (95/100)
    (by norm_num)).2.2 (7/10) rfl

/-- Claim C2 counterexample: called on the single-element sequence `[0.5]`,
the aggregator returns the triple `(0.5, NaN, NaN)` — it reports no
"insufficient sample size" error (its Python body has no error path at all),
contradicting the claimed explicit failure. -/
theorem C2_counterexample :
    compute_confidence_interval (fun x => x) (fun q _ => q) [1/2] (95/100) =
      (some (1/2), none, none) := by
  norm_num [compute_confidence_interval, statsSem, npMean, qmean, omul, osub,
    oadd, tPpfModel]

/-! ### Claim C3 -/

/-- Claim C3: the grid search enumerates exactly the full Cartesian product
of the grid (its size is the product of the candidate-list lengths and its
members are exactly the fieldwise combinations, one fresh predictor trained
per enumerated index), and for a nonempty grid `best_params` is the
combination at the first iteration attaining the maximal validation score:
every iteration's score is at most the retained one, and every strictly
earlier iteration scored strictly lower — exact ties keep the first
combination in the fixed nested-loop iteration order. -/
theorem C3_grid_search (g : ParamGrid) (score : ℕ → ℚ) (p : Params)
    (hne : gridCombos g ≠ []) :
    (gridCombos g).length = g.lr.length * g.alpha.length * g.sigma.length *
      g.dropout.length * g.batch_size.length ∧
    (p ∈ gridCombos g ↔ p.lr ∈ g.lr ∧ p.alpha ∈ g.alpha ∧ p.sigma ∈ g.sigma ∧
      p.dropout ∈ g.dropout ∧ p.batch_size ∈ g.batch_size) ∧
    ∃ i, ∃ hi : i < (gridCombos g).length,
      bestParams score (gridCombos g) = some ((gridCombos g).get ⟨i, hi⟩) ∧
      (∀ j, j < (gridCombos g).length → score j ≤ score i) ∧
      ∀ j, j < i → score j < score i :=
  ⟨length_gridCombos g, mem_gridCombos g p,
    bestParams_first_argmax score (gridCombos g) hne⟩

/-- Claim C3 witness: a 2×2 grid yields exactly 4 trained candidates. -/
theorem C3_witness :
    (gridCombos ⟨[1, 2], [3, 4], [5], [6], [7]⟩).length = 4 := by
  have h := (C3_grid_search ⟨[1, 2], [3, 4], [5], [6], [7]⟩ (fun i => (i : ℚ))
    ⟨1, 3, 5, 6, 7⟩ (by decide)).1
  simpa using h

/-! ### Claim C4 -/

/-- Claim C4: the fold's scaler is fitted on the inner-train continuous block
only; the one-hot block of the scaled train, validation, and test matrices is
unchanged; and all three continuous blocks are transformed with the same
train-fitted parameters, never re-fitted.  The scaler is fold-local: its
parameters are a function of that fold's inner-train slice alone, and no
scaler state enters the cross-fold loop state. -/
theorem C4_fold_scaling (ext : Ext) (cfg : Config) (fold : ℕ)
    (Xtf Xte0 : Matrix)
    (htr : ∀ r ∈ foldXtrain0 ext fold Xtf, cfg.cat_dim ≤ r.length)
    (hvl : ∀ r ∈ foldXval0 ext fold Xtf, cfg.cat_dim ≤ r.length)
    (hte : ∀ r ∈ Xte0, cfg.cat_dim ≤ r.length) :
    foldScaler ext cfg fold Xtf =
      Scaler.fit ext.sqrtFn (contPart cfg.cat_dim (foldXtrain0 ext fold Xtf)) ∧
    ohePart cfg.cat_dim (foldXtrainScaled ext cfg fold Xtf) =
      ohePart cfg.cat_dim (foldXtrain0 ext fold Xtf) ∧
    ohePart cfg.cat_dim (foldXvalScaled ext cfg fold Xtf) =
      ohePart cfg.cat_dim (foldXval0 ext fold Xtf) ∧
    ohePart cfg.cat_dim (foldXtestScaled ext cfg fold Xtf Xte0) =
      ohePart cfg.cat_dim Xte0 ∧
    contPart cfg.cat_dim (foldXtrainScaled ext cfg fold Xtf) =
      (foldScaler ext cfg fold Xtf).transform
        (contPart cfg.cat_dim (foldXtrain0 ext fold Xtf)) ∧
    contPart cfg.cat_dim (foldXvalScaled ext cfg fold Xtf) =
      (foldScaler ext cfg fold Xtf).transform
        (contPart cfg.cat_dim (foldXval0 ext fold Xtf)) ∧
    contPart cfg.cat_dim (foldXtestScaled ext cfg fold Xtf Xte0) =
      (foldScaler ext cfg fold Xtf).transform (contPart cfg.cat_dim Xte0) := by
  refine ⟨rfl, ?_, ?_, ?_, ?_, ?_, ?_⟩
  · exact ohePart_setCont _ _ _ htr (by rw [length_transform, length_contPart])
  · exact ohePart_setCont _ _ _ hvl (by rw [length_transform, length_contPart])
  · exact ohePart_setCont _ _ _ hte (by rw [length_transform, length_contPart])
  · exact contPart_setCont _ _ _ htr (by rw [length_transform, length_contPart])
  · exact contPart_setCont _ _ _ hvl (by rw [length_transform, length_contPart])
  · exact contPart_setCont _ _ _ hte (by rw [length_transform, length_contPart])

/-- Claim C4 witness: the fold-0 scaler on the concrete fixture is fit on the
inner-train continuous block and leaves the one-hot block untouched. -/
theorem C4_witness :
    foldScaler ext0 cfg0 0 (fancyRows X0 [0, 1, 2]) =
      Scaler.fit ext0.sqrtFn (contPart cfg0.cat_dim
        (foldXtrain0 ext0 0 (fancyRows X0 [0, 1, 2]))) ∧
    ohePart cfg0.cat_dim
        (foldXtrainScaled ext0 cfg0 0 (fancyRows X0 [0, 1, 2])) =
      ohePart cfg0.cat_dim (foldXtrain0 ext0 0 (fancyRows X0 [0, 1, 2])) := by
  have h := C4_fold_scaling ext0 cfg0 0 (fancyRows X0 [0, 1, 2])
    (fancyRows X0 [3]) (by decide) (by decide) (by decide)
  exact ⟨h.1, h.2.1⟩

/-! ### Claim C6 -/

/-- Claim C6: for every sequence of at least two values the aggregator
returns the exact sample mean together with an interval symmetric about it
whose half-width is the standard error of the mean (the external square root
`sq` of `semSq`) times the Student-t quantile at `(1 + confidence)/2` with
`N - 1` degrees of freedom.  For the sequence
`[0.70, 0.72, 0.75, 0.74, 0.73]` the mean is exactly `0.728 = 91/125`, and —
the quantile oracle being strictly increasing in the confidence level and the
standard error positive on this non-constant sequence — the half-width grows
strictly from the 90% to the 95% to the 99% level. -/
theorem C6_aggregator (sq : ℚ → ℚ) (tq : ℚ → ℤ → ℚ)
    (hpos : 0 < sq (semSq data6))
    (hm1 : tq (19/20) 4 < tq (39/40) 4)
    (hm2 : tq (39/40) 4 < tq (199/200) 4) :
    (∀ (data : List ℚ) (c : ℚ), 2 ≤ data.length →
      compute_confidence_interval sq tq data c =
        (some (qmean data),
         some (qmean data -
           sq (semSq data) * tq ((1 + c) / 2) ((data.length : ℤ) - 1)),
         some (qmean data +
           sq (semSq data) * tq ((1 + c) / 2) ((data.length : ℤ) - 1)))) ∧
    qmean data6 = 91/125 ∧
    ∃ h90 h95 h99 : ℚ,
      compute_confidence_interval sq tq data6 (90/100) =
        (some (91/125), some (91/125 - h90), some (91/125 + h90)) ∧
      compute_confidence_interval sq tq data6 (95/100) =
        (some (91/125), some (91/125 - h95), some (91/125 + h95)) ∧
      compute_confidence_interval sq tq data6 (99/100) =
        (some (91/125), some (91/125 - h99), some (91/125 + h99)) ∧
      h95 = sq (semSq data6) * tq (39/40) 4 ∧
      h90 < h95 ∧ h95 < h99 := by
  have hgen : ∀ (data : List ℚ) (c : ℚ), 2 ≤ data.length →
      compute_confidence_interval sq tq data c =
        (some (qmean data),
         some (qmean data -
           sq (semSq data) * tq ((1 + c) / 2) ((data.length : ℤ) - 1)),
         some (qmean data +
           sq (semSq data) * tq ((1 + c) / 2) ((data.length : ℤ) - 1))) := by
    intro data c h2
    simp only [compute_confidence_interval, npMean, statsSem, tPpfModel]
    rw [if_neg (by omega), if_neg (by omega), if_neg (by omega)]
    rfl
  have hmean : qmean data6 = 91/125 := by
    norm_num [qmean, data6, List.sum_cons, List.sum_nil]
  have hlen : (2 : ℕ) ≤ data6.length := by decide
  have hlenz : ((data6.length : ℤ) - 1) = 4 := by decide
  have e90 : ((1 : ℚ) + 90/100) / 2 = 19/20 := by norm_num
  have e95 : ((1 : ℚ) + 95/100) / 2 = 39/40 := by norm_num
  have e99 : ((1 : ℚ) + 99/100) / 2 = 199/200 := by norm_num
  refine ⟨hgen, hmean,
    sq (semSq data6) * tq (19/20) 4,
    sq (semSq data6) * tq (39/40) 4,
    sq (semSq data6) * tq (199/200) 4, ?_, ?_, ?_, rfl, ?_, ?_⟩
  · rw [hgen data6 (90/100) hlen, hmean, hlenz, e90]
  · rw [hgen data6 (95/100) hlen, hmean, hlenz, e95]
  · rw [hgen data6 (99/100) hlen, hmean, hlenz, e99]
  · exact mul_lt_mul_of_pos_left hm1 hpos
  · exact mul_lt_mul_of_pos_left hm2 hpos

/-- Claim C6 witness: with the identity quantile oracle and unit root, the
three intervals on the specification's example sequence are centred at
`91/125` and strictly widen. -/
theorem C6_witness :
    ∃ h90 h95 h99 : ℚ,
      compute_confidence_interval (fun _ => 1) (fun q _ => q) data6 (90/100) =
        (some (91/125), some (91/125 - h90), some (91/125 + h90)) ∧
      compute_confidence_interval (fun _ => 1) (fun q _ => q) data6 (95/100) =
        (some (91/125), some (91/125 - h95), some (91/125 + h95)) ∧
      compute_confidence_interval (fun _ => 1) (fun q _ => q) data6 (99/100) =
        (some (91/125), some (91/125 - h99), some (91/125 + h99)) ∧
      h95 = 1 * (39/40) ∧ h90 < h95 ∧ h95 < h99 :=
  (C6_aggregator (fun _ => 1) (fun q _ => q) (by norm_num) (by norm_num)
    (by norm_num)).2.2

/-! ### Claim C7 -/

/-- Claim C7 (amended): there is no fail-fast configuration check for an
empty hyperparameter grid.  With an empty grid the search loop body never
runs, `best_params` stays `None`, and the first fold raises an uncaught
TypeError at the `best_params[0]` dereference — inside fold execution, after
scaling and discretization, not before any fold executes — which then aborts
the whole run. -/
theorem C7_empty_grid_typeerror (ext : Ext) (cfg : Config) (fold : ℕ)
    (X : Matrix) (y : Labels) (tr te : List ℕ) (rest : List (List ℕ × List ℕ))
    (st : RunState) (h : gridCombos cfg.grid = []) :
    bestParams (foldScore ext cfg fold (fancyRows X tr) (subLabels y tr))
      (gridCombos cfg.grid) = none ∧
    runFold ext cfg X y fold tr te =
      .error "TypeError: NoneType object is not subscriptable" ∧
    runFolds ext cfg X y ((tr, te) :: rest) fold st =
      .error "TypeError: NoneType object is not subscriptable" := by
  have hb : bestParams (foldScore ext cfg fold (fancyRows X tr)
      (subLabels y tr)) (gridCombos cfg.grid) = none := by
    rw [h]
    exact bestParams_nil _
  have hcore := runFoldCore_none ext cfg fold (fancyRows X tr) (fancyRows X te)
    (subLabels y tr) (subLabels y te) hb
  exact ⟨hb, hcore,
    runFolds_cons_error _ _ _ _ (tr, te) rest fold st _ hcore⟩

/-- Claim C7 witness: a concrete run with an empty learning-rate candidate
list aborts with the TypeError from within the fold. -/
theorem C7_witness :
    runFolds ext0 cfgE X0 y0 [([0, 1, 2], [3])] 1 ⟨[], [], []⟩ =
      .error "TypeError: NoneType object is not subscriptable" :=
  (C7_empty_grid_typeerror ext0 cfgE 1 X0 y0 [0, 1, 2] [3] [] ⟨[], [], []⟩
    rfl).2.2

/-- Claim C7 counterexample: with an empty grid the concrete run terminates
with an uncaught `TypeError: NoneType object is not subscriptable` raised
during the first fold's execution — not with a configuration error raised
before any fold executes. -/
theorem C7_counterexample :
    runFolds ext0 cfgE X0 y0 [([0, 1, 2], [3])] 0 ⟨[], [], []⟩ =
      .error "TypeError: NoneType object is not subscriptable" := by
  have hcore := runFoldCore_none ext0 cfgE 0 (fancyRows X0 [0, 1, 2])
    (fancyRows X0 [3]) (subLabels y0 [0, 1, 2]) (subLabels y0 [3]) rfl
  exact runFolds_cons_error ext0 cfgE X0 y0 ([0, 1, 2], [3]) [] 0 ⟨[], [], []⟩
    _ hcore

/-! ### Shared concrete fold evaluation -/

/-- The IBS step on a fold whose unique primary-event times are `[t1, t2]`. -/
lemma ibsStep_pair (brierAt : ℚ → ℚ) (times : List ℚ) (events : List ℕ)
    (t1 t2 : ℚ) (h : npUnique (primaryTimes times events) = [t1, t2]) :
    ibsStep brierAt times events =
      .ok (qdivN (trapz (List.map brierAt [t1, t2]) [t1, t2])
        (([t1, t2]).getLast (List.cons_ne_nil t1 [t2]) - t1)) := by
  unfold ibsStep
  rw [h]

/-- The singleton grid of the fixture retains its single combination on the
`y2` fold. -/
lemma y2fold_hb :
    bestParams (foldScore ext0 cfg0 0 (fancyRows X0 [0, 1])
      (subLabels y2 [0, 1])) (gridCombos cfg0.grid) =
      some ⟨1/1000, 1/5, 1/10, 1/2, 128⟩ := by
  rw [show gridCombos cfg0.grid = [⟨1/1000, 1/5, 1/10, 1/2, 128⟩] from rfl]
  exact bestParams_singleton _ _

/-- The concrete `y2` fold (two distinct primary-event times in its test set)
runs to a successful fold output. -/
lemma y2fold_ok : ∃ out : FoldOut,
    runFoldCore ext0 cfg0 0 (fancyRows X0 [0, 1]) (fancyRows X0 [2, 3])
      (subLabels y2 [0, 1]) (subLabels y2 [2, 3]) = .ok out :=
  ⟨_, runFoldCore_ok_mk ext0 cfg0 0 (fancyRows X0 [0, 1]) (fancyRows X0 [2, 3])
    (subLabels y2 [0, 1]) (subLabels y2 [2, 3]) _ _ y2fold_hb
    (ibsStep_pair _ _ _ 30 40 rfl)⟩

/-! ### Claim C5 -/

/-- Claim C5: the fold's discretization grid is fitted on the inner-train
`(time, event)` pairs only; the inner-train and inner-validation durations
are both discretized with that same train-fitted grid; the outer-test labels
stay in continuous time — the output table's `time` column is the raw test
times — and the fold's prediction columns are indexed by that fold's own
grid cuts. -/
theorem C5_fold_discretization (ext : Ext) (cfg : Config) (fold : ℕ)
    (Xtf Xte0 : Matrix) (ytf yte : Labels) (out : FoldOut)
    (h : runFoldCore ext cfg fold Xtf Xte0 ytf yte = .ok out) :
    foldLabtrans ext cfg fold Xtf ytf =
      LabTrans.fit cfg.num_durations (foldYtrain ext fold Xtf ytf).times
        (foldYtrain ext fold Xtf ytf).events ∧
    foldDurTrain ext cfg fold Xtf ytf =
      (foldYtrain ext fold Xtf ytf).times.map
        (foldLabtrans ext cfg fold Xtf ytf).transformD ∧
    foldDurVal ext cfg fold Xtf ytf =
      (foldYval ext fold Xtf ytf).times.map
        (foldLabtrans ext cfg fold Xtf ytf).transformD ∧
    out.table.head? = some ("time", yte.times) ∧
    out.table.map Prod.fst = "time" :: "delta" ::
      (List.range cfg.num_risks).flatMap (fun r =>
        (foldLabtrans ext cfg fold Xtf ytf).cuts.map
          (fun t => predColName (r + 1) t)) := by
  obtain ⟨p, v, hb, hi, hout⟩ :=
    runFoldCore_ok_inv ext cfg fold Xtf Xte0 ytf yte out h
  subst hout
  exact ⟨rfl, rfl, rfl, rfl, mkTable_names _ _ _ _⟩

/-- Claim C5 witness: a successful concrete fold keeps the raw continuous
test times `[30, 40]` in its output's `time` column. -/
theorem C5_witness : ∃ out : FoldOut,
    runFoldCore ext0 cfg0 0 (fancyRows X0 [0, 1]) (fancyRows X0 [2, 3])
      (subLabels y2 [0, 1]) (subLabels y2 [2, 3]) = .ok out ∧
    out.table.head? = some ("time", [30, 40]) := by
  obtain ⟨out, hout⟩ := y2fold_ok
  have h5 := C5_fold_discretization ext0 cfg0 0 (fancyRows X0 [0, 1])
    (fancyRows X0 [2, 3]) (subLabels y2 [0, 1]) (subLabels y2 [2, 3]) out hout
  exact ⟨out, hout, h5.2.2.2.1⟩

/-! ### Claim C8 -/

/-- Claim C8 (amended): a successful run writes exactly one prediction table
per split (`folds × repeats` in total), each named deterministically
`fold_{k+1}_predictions.csv` by its fold index and equal to the DataFrame
built from that fold alone; the table's columns are `time`, then `delta`
(the event-code column is named `delta`, not `event-code`), then
`pred_event{r}_time{t}` for each risk `r` and each grid time `t`, holding
the predicted cumulative incidence values. -/
theorem C8_output_tables (ext : Ext) (cfg : Config) (X : Matrix) (y : Labels)
    (splits : List (List ℕ × List ℕ)) (st' : RunState)
    (h : runFolds ext cfg X y splits 0 ⟨[], [], []⟩ = .ok st') :
    st'.outputs.length = splits.length ∧
    (∀ k, (hk : k < splits.length) →
      runFold ext cfg X y k (splits.get ⟨k, hk⟩).1 (splits.get ⟨k, hk⟩).2 =
        .ok (st'.outputs.getD k defaultFoldOut) ∧
      (st'.outputs.getD k defaultFoldOut).fileName =
        "fold_" ++ toString (k + 1) ++ "_predictions.csv" ∧
      ∃ p v, st'.outputs.getD k defaultFoldOut = {
        fileName := "fold_" ++ toString (k + 1) ++ "_predictions.csv"
        table := mkTable cfg.num_risks
          (foldLabtrans ext cfg k (fancyRows X (splits.get ⟨k, hk⟩).1)
            (subLabels y (splits.get ⟨k, hk⟩).1)).cuts
          (ext.cif k (foldTrainData ext cfg k
              (fancyRows X (splits.get ⟨k, hk⟩).1)
              (subLabels y (splits.get ⟨k, hk⟩).1)) p
            (foldXtestScaled ext cfg k (fancyRows X (splits.get ⟨k, hk⟩).1)
              (fancyRows X (splits.get ⟨k, hk⟩).2)))
          (subLabels y (splits.get ⟨k, hk⟩).2)
        cindex := ext.testScore k (foldTrainData ext cfg k
            (fancyRows X (splits.get ⟨k, hk⟩).1)
            (subLabels y (splits.get ⟨k, hk⟩).1)) p
          (foldXtestScaled ext cfg k (fancyRows X (splits.get ⟨k, hk⟩).1)
            (fancyRows X (splits.get ⟨k, hk⟩).2))
          (subLabels y (splits.get ⟨k, hk⟩).2)
        ibs := v }) ∧
    ∀ (nr : ℕ) (di : List ℚ) (cifAt : ℕ → ℕ → ℕ → ℚ) (yl : Labels),
      (mkTable nr di cifAt yl).map Prod.fst =
        "time" :: "delta" :: (List.range nr).flatMap
          (fun r => di.map (fun t => predColName (r + 1) t)) := by
  obtain ⟨tail, hout, hlen, hk⟩ :=
    runFolds_ok_outputs ext cfg X y splits 0 ⟨[], [], []⟩ st' h
  have houts : st'.outputs = tail := by simpa using hout
  refine ⟨by rw [houts, hlen], ?_,
    fun nr di cifAt yl => mkTable_names nr di cifAt yl⟩
  intro k hklt
  have h1 := hk k hklt
  rw [Nat.zero_add] at h1
  have hget : st'.outputs.getD k defaultFoldOut =
      tail.getD k defaultFoldOut := by rw [houts]
  obtain ⟨p, v, hb, hi, hrec⟩ := runFoldCore_ok_inv ext cfg k
    (fancyRows X (splits.get ⟨k, hklt⟩).1)
    (fancyRows X (splits.get ⟨k, hklt⟩).2)
    (subLabels y (splits.get ⟨k, hklt⟩).1)
    (subLabels y (splits.get ⟨k, hklt⟩).2)
    (tail.getD k defaultFoldOut) h1
  refine ⟨by rw [hget]; exact h1, by rw [hget, hrec], p, v, by rw [hget, hrec]⟩

/-- Claim C8 witness: the concrete one-split run produces exactly one table,
named `fold_1_predictions.csv`. -/
theorem C8_witness : ∃ st' : RunState,
    runFolds ext0 cfg0 X0 y2 [([0, 1], [2, 3])] 0 ⟨[], [], []⟩ = .ok st' ∧
    st'.outputs.length = 1 ∧
    (st'.outputs.getD 0 defaultFoldOut).fileName =
      "fold_1_predictions.csv" := by
  obtain ⟨out, hout⟩ := y2fold_ok
  have hrun := runFolds_cons_ok ext0 cfg0 X0 y2 ([0, 1], [2, 3]) [] 0
    ⟨[], [], []⟩ out hout
  have hok : runFolds ext0 cfg0 X0 y2 [([0, 1], [2, 3])] 0 ⟨[], [], []⟩ =
      .ok ⟨[out.cindex], [out.ibs], [out]⟩ := by
    rw [hrun]
    rfl
  have h8 := C8_output_tables ext0 cfg0 X0 y2 [([0, 1], [2, 3])] _ hok
  refine ⟨_, hok, h8.1, ?_⟩
  have hname := (h8.2.1 0 (by decide)).2.1
  rw [hname]
  rfl

/-- Claim C8 counterexample: the concrete fold's table columns are named
`time`, `delta`, `pred_event1_time10`, `pred_event1_time20` — there is no
column named `event-code`: the source names the event-code column `delta`. -/
theorem C8_counterexample : ∃ out : FoldOut,
    runFold ext0 cfg0 X0 y2 0 [0, 1] [2, 3] = .ok out ∧
    out.table.map Prod.fst =
      ["time", "delta", "pred_event1_time10", "pred_event1_time20"] ∧
    "event-code" ∉ out.table.map Prod.fst := by
  obtain ⟨out, hout⟩ := y2fold_ok
  obtain ⟨p, v, hb, hi, hrec⟩ := runFoldCore_ok_inv ext0 cfg0 0
    (fancyRows X0 [0, 1]) (fancyRows X0 [2, 3]) (subLabels y2 [0, 1])
    (subLabels y2 [2, 3]) out hout
  have hcuts : (foldLabtrans ext0 cfg0 0 (fancyRows X0 [0, 1])
      (subLabels y2 [0, 1])).cuts = [10, 20] := by
    norm_num [foldLabtrans, LabTrans.fit, qlistMin, qlistMax, cfg0,
      List.range_succ, foldYtrain, ext0, foldInner, subLabels, fancyRows,
      X0, y2]
  have hnames : out.table.map Prod.fst =
      ["time", "delta", "pred_event1_time10", "pred_event1_time20"] := by
    rw [hrec]
    show (mkTable cfg0.num_risks _ _ _).map Prod.fst = _
    rw [mkTable_names, hcuts]
    rfl
  refine ⟨out, hout, hnames, ?_⟩
  rw [hnames]
  decide

/-! ### Claim C9 -/

/-- Claim C9: frame condition of a fold.  A fold reads the global feature
matrix and label arrays only through its own fancy-indexed copies: its result
is unchanged under any modification of the globals outside the fold's own
train/test indices (in particular the in-place scaling of the fold's local
copies never reaches the globals, numpy fancy indexing being a copy).  And
each fold's outcome in the loop is the pure function `runFold` of the globals
and that fold's split alone — the loop state carries only the metric and
output lists, so no fold's scaler, grid, or predictor state is visible to any
other fold. -/
theorem C9_fold_frame (ext : Ext) (cfg : Config) (X Xalt : Matrix)
    (y yalt : Labels) (fold : ℕ) (tr te : List ℕ)
    (hX : ∀ i ∈ tr ++ te, X.getD i [] = Xalt.getD i [])
    (ht : ∀ i ∈ tr ++ te, y.times.getD i 0 = yalt.times.getD i 0)
    (he : ∀ i ∈ tr ++ te, y.events.getD i 0 = yalt.events.getD i 0) :
    runFold ext cfg X y fold tr te = runFold ext cfg Xalt yalt fold tr te ∧
    (∀ splits st st', runFolds ext cfg X y splits fold st = .ok st' →
      ∃ tail, st'.outputs = st.outputs ++ tail ∧
        tail.length = splits.length ∧
        ∀ k, (hk : k < splits.length) →
          runFold ext cfg X y (fold + k) (splits.get ⟨k, hk⟩).1
            (splits.get ⟨k, hk⟩).2 = .ok (tail.getD k defaultFoldOut)) := by
  constructor
  · have h1 : fancyRows X tr = fancyRows Xalt tr :=
      List.map_congr_left (fun i hi => hX i (List.mem_append_left te hi))
    have h2 : fancyRows X te = fancyRows Xalt te :=
      List.map_congr_left (fun i hi => hX i (List.mem_append_right tr hi))
    have h3 : subLabels y tr = subLabels yalt tr := by
      unfold subLabels
      rw [List.map_congr_left (fun i hi => ht i (List.mem_append_left te hi)),
        List.map_congr_left (fun i hi => he i (List.mem_append_left te hi))]
    have h4 : subLabels y te = subLabels yalt te := by
      unfold subLabels
      rw [List.map_congr_left (fun i hi => ht i (List.mem_append_right tr hi)),
        List.map_congr_left (fun i hi => he i (List.mem_append_right tr hi))]
    unfold runFold
    rw [h1, h2, h3, h4]
  · intro splits st st' h
    exact runFolds_ok_outputs ext cfg X y splits fold st st' h

/-- Claim C9 witness: modifying a global row outside the fold's indices does
not change the fold's result. -/
theorem C9_witness :
    runFold ext0 cfg0 X0 y0 0 [0, 1] [2] =
      runFold ext0 cfg0 [[1, 2], [0, 3], [1, 4], [9, 9]] y0 0 [0, 1] [2] :=
  (C9_fold_frame ext0 cfg0 X0 [[1, 2], [0, 3], [1, 4], [9, 9]] y0 y0 0 [0, 1]
    [2] (by intro i hi; fin_cases hi <;> rfl) (fun _ _ => rfl)
    (fun _ _ => rfl)).1

/-! ### Claim C10 -/

/-- Claim C10: the number of risks is computed, not configured: it is the
largest event code present in the (nonempty) dataset, and
`CauseSpecificNet.__init__` builds exactly that many risk-specific nets — one
risk net when the largest code is 1 (no competing events), zero risk nets on
an all-censored dataset. -/
theorem C10_num_risks (events : List ℕ) (m : ℕ)
    (in_features out_features : ℕ) (shared indiv : List ℕ) (dr : ℚ)
    (hmem : m ∈ events) (hub : ∀ e ∈ events, e ≤ m) :
    numRisks events = m ∧
    (mkCauseSpecificNet in_features shared indiv (numRisks events)
      out_features dr).risk_nets.length = m := by
  have h1 : numRisks events = m :=
    le_antisymm (foldl_max_le events 0 m (Nat.zero_le m) hub)
      (mem_le_foldl_max events 0 m hmem)
  exact ⟨h1, by simp [mkCauseSpecificNet, h1]⟩

/-- Claim C10 witness: a dataset with codes `{0, 1}` yields one risk net and
an all-censored dataset yields zero risk nets. -/
theorem C10_witness :
    (mkCauseSpecificNet 7 [50, 30] [30] (numRisks [0, 1, 1, 0]) 115
      (1/10)).risk_nets.length = 1 ∧
    (mkCauseSpecificNet 7 [50, 30] [30] (numRisks [0, 0]) 115
      (1/10)).risk_nets.length = 0 :=
  ⟨(C10_num_risks [0, 1, 1, 0] 1 7 115 [50, 30] [30] (1/10) (by decide)
      (by decide)).2,
   (C10_num_risks [0, 0] 0 7 115 [50, 30] [30] (1/10) (by decide)
      (by decide)).2⟩

end DeepHitCR
